import Mathlib

/-!
Verification of the incremental LinkedIn-feed synchronization engine
(`linkedin_scraper.py`, `generate_rss.py`) against its specification.

The Python source is shallowly embedded: every definition below is a direct
translation of the corresponding Python function, with the external renderer
(Playwright) represented by the data each raw post element exposes to the
scraper (attribute values, selector query results, anchor hrefs, regex
matches), exactly the interface boundary the spec draws in its section 6.
-/

namespace LinkedInFeed

/-! ## Data model

One persisted item, as serialized by `save_posts` into `{slug}_posts.json`
(fields `title`, `link`, `description`, `published`, `images`, `scraped_at`).
-/

structure Post where
  title : String
  link : String
  description : String
  published : String
  images : List String
  scraped_at : String
deriving Repr, DecidableEq

/-! ## Merge & Persistence Engine (`LinkedInScraper.save_posts`, lines 92-115)

Python:
```
existing_links = {p['link'] for p in existing_posts}
merged_posts = posts.copy()  # Start with new posts
for existing_post in existing_posts:
    if existing_post['link'] not in {p['link'] for p in posts}:
        merged_posts.append(existing_post)
```
(the `existing_links` binding on line 98 is dead code; the loop re-derives the
set of new links from `posts` at each membership test, which is what
`newPostLinks` models).
-/

def newPostLinks (posts : List Post) : List String :=
  posts.map (fun p => p.link)

def mergeExisting (posts : List Post) : List Post → List Post → List Post
  | merged_posts, [] => merged_posts
  | merged_posts, existing_post :: rest =>
    if existing_post.link ∈ newPostLinks posts then
      mergeExisting posts merged_posts rest
    else
      mergeExisting posts (merged_posts ++ [existing_post]) rest

def save_posts_merge (posts existing_posts : List Post) : List Post :=
  mergeExisting posts posts existing_posts

/-- The appending loop of `save_posts` is equivalent to filtering the existing
posts by non-membership of their link among the new links. -/
lemma mergeExisting_eq_filter (posts : List Post) :
    ∀ (existing acc : List Post),
      mergeExisting posts acc existing =
        acc ++ existing.filter (fun e => decide (e.link ∉ newPostLinks posts)) := by
  intro existing
  induction existing with
  | nil => intro acc; simp [mergeExisting]
  | cons e rest ih =>
    intro acc
    by_cases h : e.link ∈ newPostLinks posts
    · simp [mergeExisting, h, ih]
    · simp [mergeExisting, h, ih]

lemma save_posts_merge_eq (posts existing : List Post) :
    save_posts_merge posts existing =
      posts ++ existing.filter (fun e => decide (e.link ∉ newPostLinks posts)) := by
  simpa [save_posts_merge] using mergeExisting_eq_filter posts existing posts

/-- C1: the merge produces exactly `new_items` (in their given order) followed by
those items of `existing` whose link does not occur among the links of
`new_items`, kept in their existing relative order (`List.filter` preserves
order); in particular every new item precedes every retained old item, since the
result is literally `posts ++ retained`. -/
theorem merge_output_order (posts existing : List Post) :
    save_posts_merge posts existing =
      posts ++ existing.filter (fun e => decide (e.link ∉ newPostLinks posts)) :=
  save_posts_merge_eq posts existing

/-- Concrete item used in counterexamples and witnesses. -/
def samplePost (l : String) : Post :=
  { title := "a post", link := l, description := "body", published := "2024-01-01T00:00:00",
    images := [], scraped_at := "2024-01-02T00:00:00" }

/-- C3 (counterexample): the dedup invariant does NOT hold for every merge.
`save_posts` never deduplicates inside `posts` itself: merging the new-item
sequence `[p, p]` (twice the same link) with an empty existing state yields an
items sequence carrying that link twice. -/
theorem merge_dedup_counterexample :
    ¬ (((save_posts_merge [samplePost "https://www.linkedin.com/feed/update/urn:li:activity:1",
          samplePost "https://www.linkedin.com/feed/update/urn:li:activity:1"] []).map
            (fun p => p.link)).Nodup) := by
  decide

/-- C3 (amended): if the new items have pairwise distinct links and the existing
items have pairwise distinct links, then the merged output contains each link at
most once. -/
theorem merge_dedup_of_nodup_inputs (posts existing : List Post)
    (h1 : (posts.map (fun p => p.link)).Nodup)
    (h2 : (existing.map (fun p => p.link)).Nodup) :
    ((save_posts_merge posts existing).map (fun p => p.link)).Nodup := by
  rw [save_posts_merge_eq, List.map_append, List.nodup_append]
  refine ⟨h1, ?_, ?_⟩
  · exact h2.sublist ((List.filter_sublist existing).map (fun p => p.link))
  · intro x hx1 hx2
    rcases List.mem_map.1 hx2 with ⟨e, he, rfl⟩
    rcases List.mem_filter.1 he with ⟨-, hcond⟩
    exact (of_decide_eq_true hcond) (by simpa [newPostLinks] using hx1)

/-- Witness for the amended C3 at a concrete input. -/
theorem merge_dedup_of_nodup_inputs_witness :
    (((save_posts_merge [samplePost "https://a"] [samplePost "https://a", samplePost "https://b"]).map
        (fun p => p.link)).Nodup) :=
  merge_dedup_of_nodup_inputs [samplePost "https://a"]
    [samplePost "https://a", samplePost "https://b"] (by decide) (by decide)

/-- C4: merge is idempotent in `new_items`: re-merging the same `posts` against
the state produced by a first merge returns that state's item sequence
unchanged (hence the items set is identical and there is no duplicate growth). -/
theorem merge_idempotent (posts existing : List Post) :
    save_posts_merge posts (save_posts_merge posts existing) =
      save_posts_merge posts existing := by
  rw [save_posts_merge_eq posts existing, save_posts_merge_eq, List.filter_append]
  have hposts : posts.filter (fun e => decide (e.link ∉ newPostLinks posts)) = [] := by
    rw [List.filter_eq_nil_iff]
    intro p hp
    simp only [decide_eq_true_eq, Decidable.not_not]
    exact List.mem_map.2 ⟨p, hp, rfl⟩
  have hfix :
      (existing.filter (fun e => decide (e.link ∉ newPostLinks posts))).filter
          (fun e => decide (e.link ∉ newPostLinks posts)) =
        existing.filter (fun e => decide (e.link ∉ newPostLinks posts)) := by
    rw [List.filter_filter]
    simp
  rw [hposts, hfix, List.nil_append]

/-! ## Identity & Timestamp Resolver: activity-id decoding
(`decode_linkedin_activity_id`, lines 43-59)

Python:
```
try:
    activity_num = int(activity_id)
    timestamp_ms = activity_num >> 22
    dt = datetime.fromtimestamp(timestamp_ms / 1000, tz=timezone.utc)
    return dt.isoformat()
except Exception:
    return None
```
`pyIntOfString` models `int()` applied to a string: strip surrounding
whitespace, optional sign, base-10 digit run with optional single underscore
separators between digits (the ASCII forms; exotic unicode digit strings do not
occur as activity ids).  The decoder's success value is modelled as the decoded
epoch-millisecond integer `activity_num >> 22` (Python's `>>` on `int` is the
floor division by `2 ^ 22`, i.e. `Int.fdiv`); the subsequent
`datetime.fromtimestamp(ms / 1000, tz=utc).isoformat()` call is a pure
rendering of that value as a UTC timestamp string.
-/

def pyWs (c : Char) : Bool :=
  c == ' ' || c == '\t' || c == '\n' || c == '\r' || c == Char.ofNat 11 || c == Char.ofNat 12

def pyStripChars (cs : List Char) : List Char :=
  ((cs.dropWhile pyWs).reverse.dropWhile pyWs).reverse

/-- `str.strip()` (ASCII whitespace). -/
def pyStrip (s : String) : String :=
  String.mk (pyStripChars s.data)

/-- Digit run continuation: after the leading digit, each underscore must be
followed by a digit, and everything else must be a digit. -/
def digitsCore : List Char → Bool
  | [] => true
  | c :: rest =>
    if c == '_' then
      match rest with
      | d :: rest2 => d.isDigit && digitsCore rest2
      | [] => false
    else
      c.isDigit && digitsCore rest

def validDigits : List Char → Bool
  | [] => false
  | c :: rest => c.isDigit && digitsCore rest

def digitsValue (cs : List Char) : Nat :=
  (cs.filter Char.isDigit).foldl (fun acc c => 10 * acc + (c.toNat - 48)) 0

/-- `int(s)` on a string: `some` value on a valid base-10 literal, `none` where
Python raises `ValueError` (the scraper's `except` turns that into `None`). -/
def pyIntOfString (s : String) : Option Int :=
  match pyStripChars s.data with
  | '+' :: body => if validDigits body then some ((digitsValue body : Nat) : Int) else none
  | '-' :: body => if validDigits body then some (-((digitsValue body : Nat) : Int)) else none
  | body => if validDigits body then some ((digitsValue body : Nat) : Int) else none

def decode_linkedin_activity_id (activity_id : String) : Option Int :=
  match pyIntOfString activity_id with
  | some activity_num => some (Int.fdiv activity_num (2 ^ 22))
  | none => none

/-- C5: the constructed token `146000000000000 << 22 | 12345` (whose decimal
form is the string below) decodes to the timestamp of epoch-ms
`146000000000000`, and every token that is not a numeric literal decodes to
`none` (no timestamp) instead of raising. -/
theorem activity_id_decode :
    decode_linkedin_activity_id "612368384000000012345" = some 146000000000000 ∧
    pyIntOfString "612368384000000012345" =
      some ((((146000000000000 : Nat) <<< 22 ||| 12345 : Nat) : Int)) ∧
    (∀ s : String, pyIntOfString s = none → decode_linkedin_activity_id s = none) := by
  refine ⟨by decide, by decide, ?_⟩
  intro s h
  simp [decode_linkedin_activity_id, h]

/-- Witness for C5: a non-numeric token yields no timestamp. -/
theorem activity_id_decode_witness :
    decode_linkedin_activity_id "urn:li:activity" = none :=
  activity_id_decode.2.2 "urn:li:activity" (by decide)

/-! ## Persisted state file (`save_posts` / `load_existing_posts`, lines 92-128)

The state file for a slug holds either the legacy shape (a bare JSON list of
items) or the wrapper record written by `save_posts`
(`{"page_name": ..., "slug": ..., "updated_at": ..., "posts": [...]}`).
Dictionary fields are optional because `load_existing_posts` and
`generate_rss.load_posts` read them with `.get(..., default)`.
-/

structure StateDict where
  page_name : Option String
  slug : Option String
  updated_at : Option String
  posts : Option (List Post)
deriving Repr, DecidableEq

inductive PostsFileData where
  | plist (items : List Post)
  | pdict (d : StateDict)
deriving Repr, DecidableEq

/-- `load_existing_posts` (lines 117-128): absent file gives `[]`; a bare list
is returned as is; a dict yields `data.get('posts', [])`. -/
def load_existing_posts : Option PostsFileData → List Post
  | none => []
  | some (.plist items) => items
  | some (.pdict d) => d.posts.getD []

/-- `s.replace('-', ' ')`. -/
def replaceDashes (s : String) : String :=
  String.mk (s.data.map (fun c => if c == '-' then ' ' else c))

/-- `str.title()` (ASCII model): the first alphabetic character of each
alphabetic run is uppercased, the rest lowercased. -/
def pyTitleGo : Bool → List Char → List Char
  | _, [] => []
  | prevCased, c :: rest =>
    if c.isAlpha then
      (if prevCased then c.toLower else c.toUpper) :: pyTitleGo true rest
    else
      c :: pyTitleGo false rest

def pyTitle (s : String) : String :=
  String.mk (pyTitleGo false s.data)

/-- `save_posts` (lines 92-115): merge the new posts into the loaded existing
posts and rewrite the whole state file with fresh metadata
(`self.page_name or self.slug.replace('-', ' ').title()`, the slug, and
`datetime.now().isoformat()` passed here as `now`). -/
def save_posts (page_name : Option String) (slug now : String) (posts : List Post)
    (file : Option PostsFileData) : PostsFileData :=
  let existing_posts := load_existing_posts file
  let merged_posts := save_posts_merge posts existing_posts
  PostsFileData.pdict
    { page_name := some (match page_name with
        | some n => if n = "" then pyTitle (replaceDashes slug) else n
        | none => pyTitle (replaceDashes slug)),
      slug := some slug,
      updated_at := some now,
      posts := some merged_posts }

/-- `main` (lines 704-724): the scraped posts are persisted only when the list
is non-empty (`if posts: scraper.save_posts(posts)`); a failed run and a
successful run with zero new items both hand the empty list to `main` (the
scraper's error handler and its no-new-content path both `return []`), so the
state file is not rewritten in either case. -/
def main_run (file : Option PostsFileData) (scraped : List Post) (page_name : Option String)
    (slug now : String) : Option PostsFileData :=
  if scraped.isEmpty then file
  else some (save_posts page_name slug now scraped file)

/-- C7: after a run that produced no new items (a failed run, or a successful
run that found nothing new) nothing in the persisted state changes: the file is
bit-for-bit the previous one, so `page_name`, `slug` and `items` are unchanged
(and so, a fortiori, is everything except `last_sync_at`, which `main` only
rewrites when new items exist). -/
theorem failed_or_empty_run_frame (file : Option PostsFileData) (page_name : Option String)
    (slug now : String) :
    main_run file [] page_name slug now = file ∧
    load_existing_posts (main_run file [] page_name slug now) = load_existing_posts file := by
  constructor
  · simp [main_run]
  · simp [main_run]

/-! ## Legacy state read (`load_existing_posts` and `generate_rss.load_posts`) -/

/-- `RSSFeedGenerator.load_posts` (generate_rss.py lines 39-62): returns the
item list together with the page name it extracts; a bare list yields the
titleized slug as page name, a dict yields `data.get('page_name', fallback)`. -/
def rss_load_posts (slug : String) (file : Option PostsFileData) :
    List Post × Option String :=
  match file with
  | none => ([], none)
  | some (.plist items) => (items, some (pyTitle (replaceDashes slug)))
  | some (.pdict d) => (d.posts.getD [], some (d.page_name.getD (pyTitle (replaceDashes slug))))

/-- C9: a state file holding a bare item list is read identically to one
holding the wrapper record with the same `posts` field, by both readers that
feed the high-water-mark pipeline (`load_existing_posts`, and
`generate_rss.load_posts` which produces the XML whose first entry is the next
run's high-water mark); hence any computation of a high-water mark from the
loaded item list agrees on the two shapes. -/
theorem legacy_state_read_equiv (items : List Post) (slug : String)
    (pn sl up : Option String) :
    load_existing_posts (some (.plist items)) =
      load_existing_posts (some (.pdict ⟨pn, sl, up, some items⟩)) ∧
    (rss_load_posts slug (some (.plist items))).1 =
      (rss_load_posts slug (some (.pdict ⟨pn, sl, up, some items⟩))).1 ∧
    (∀ highWaterMark : List Post → Option String,
      highWaterMark (load_existing_posts (some (.plist items))) =
        highWaterMark (load_existing_posts (some (.pdict ⟨pn, sl, up, some items⟩)))) :=
  ⟨rfl, rfl, fun _ => rfl⟩

/-! ## High-water-mark reader (`get_latest_post_link_from_xml`, lines 130-161)

The previously emitted RSS artifact is modelled as: absent, unparseable (the
`except` branch of `ET.parse`), or a parsed element tree.  `Element.find(tag)`
returns the first direct child with that tag; `elem.text` is the optional text
node. -/

inductive XmlTree where
  | elem (tag : String) (text : Option String) (children : List XmlTree)

def XmlTree.tag : XmlTree → String
  | .elem t _ _ => t

def XmlTree.textOf : XmlTree → Option String
  | .elem _ txt _ => txt

def XmlTree.findChild : XmlTree → String → Option XmlTree
  | .elem _ _ children, name => children.find? (fun c => c.tag == name)

inductive XmlFile where
  | absent
  | unparseable
  | parsed (root : XmlTree)

def get_latest_post_link_from_xml : XmlFile → Option String
  | .absent => none
  | .unparseable => none
  | .parsed root =>
    match root.findChild "channel" with
    | some channel =>
      match channel.findChild "item" with
      | some item =>
        match item.findChild "link" with
        | some link =>
          match link.textOf with
          | some t => if t = "" then none else some t
          | none => none
        | none => none
      | none => none
    | none => none

/-- `scrape_posts` lines 181-182: `is_initial_run = (target_post_link is None)`. -/
def mode_is_bootstrap (f : XmlFile) : Bool :=
  (get_latest_post_link_from_xml f).isNone

/-- C10: the high-water-mark reader is total: for an absent file, an
unparseable file, or parsed XML lacking a `channel`, `item` or `link` child or
carrying an empty link text, it returns `none` (never raising, since every
branch of the translated function is a value), a returned link is always
non-empty, and a `none` result makes the run select Bootstrap mode. -/
theorem hwm_reader_total :
    get_latest_post_link_from_xml .absent = none ∧
    get_latest_post_link_from_xml .unparseable = none ∧
    (∀ root : XmlTree, root.findChild "channel" = none →
      get_latest_post_link_from_xml (.parsed root) = none) ∧
    (∀ (root ch : XmlTree), root.findChild "channel" = some ch →
      ch.findChild "item" = none → get_latest_post_link_from_xml (.parsed root) = none) ∧
    (∀ (root ch it : XmlTree), root.findChild "channel" = some ch →
      ch.findChild "item" = some it → it.findChild "link" = none →
      get_latest_post_link_from_xml (.parsed root) = none) ∧
    (∀ (root ch it lk : XmlTree), root.findChild "channel" = some ch →
      ch.findChild "item" = some it → it.findChild "link" = some lk →
      (lk.textOf = none ∨ lk.textOf = some "") →
      get_latest_post_link_from_xml (.parsed root) = none) ∧
    (∀ (f : XmlFile) (t : String), get_latest_post_link_from_xml f = some t → t ≠ "") ∧
    (∀ f : XmlFile, get_latest_post_link_from_xml f = none → mode_is_bootstrap f = true) := by
  refine ⟨rfl, rfl, ?_, ?_, ?_, ?_, ?_, ?_⟩
  · intro root h
    simp [get_latest_post_link_from_xml, h]
  · intro root ch h1 h2
    simp [get_latest_post_link_from_xml, h1, h2]
  · intro root ch it h1 h2 h3
    simp [get_latest_post_link_from_xml, h1, h2, h3]
  · intro root ch it lk h1 h2 h3 h4
    rcases h4 with h4 | h4 <;> simp [get_latest_post_link_from_xml, h1, h2, h3, h4]
  · intro f t h ht
    subst ht
    match f with
    | .absent => simp [get_latest_post_link_from_xml] at h
    | .unparseable => simp [get_latest_post_link_from_xml] at h
    | .parsed root =>
      rcases h1 : root.findChild "channel" with - | ch
      · simp [get_latest_post_link_from_xml, h1] at h
      rcases h2 : ch.findChild "item" with - | it
      · simp [get_latest_post_link_from_xml, h1, h2] at h
      rcases h3 : it.findChild "link" with - | lk
      · simp [get_latest_post_link_from_xml, h1, h2, h3] at h
      rcases h4 : lk.textOf with - | t0
      · simp [get_latest_post_link_from_xml, h1, h2, h3, h4] at h
      by_cases h0 : t0 = "" <;>
        simp [get_latest_post_link_from_xml, h1, h2, h3, h4, h0] at h
  · intro f h
    simp [mode_is_bootstrap, h]

/-- Witness for C10 at concrete inputs: an `rss` root with no `channel` child
gives no mark, and an absent artifact selects Bootstrap mode. -/
theorem hwm_reader_total_witness :
    get_latest_post_link_from_xml (.parsed (.elem "rss" none [])) = none ∧
    mode_is_bootstrap .absent = true :=
  ⟨hwm_reader_total.2.2.1 (.elem "rss" none []) rfl,
   hwm_reader_total.2.2.2.2.2.2.2 .absent rfl⟩

/-! ## Raw post elements (the renderer interface)

A raw item handle exposes, per the interface boundary of spec section 6, an
attribute block, markup/text accessors and child queries.  Each field below
records what the corresponding Playwright/regex call returns for this element
inside the extraction code of `scrape_posts` (lines 481-618):

* `dataUrn` — `post_element.get_attribute("data-urn")`.
* `strategy1Matches` — `re.findall(pattern, post_element.inner_html())` for the
  strategy-1 URL pattern built from this element's activity id (the regex
  engine is an external collaborator, so its result list is part of the
  element's interface data).
* `hrefs` — `get_attribute("href")` of each element of
  `query_selector_all("a[href]")`, in document order.
* `selectorTexts` — per text selector in `text_selectors` order, the
  `inner_text()` of `query_selector(selector)` (`none` when no node matches).
* `fullInnerText` — `post_element.inner_text()` (`none` when the call raises).
* `selectorImages` — per image selector in `image_selectors` order, the `src`
  attribute of each matched `img`.
* `timeDatetimes` — the `datetime` attribute of each `time` element.
-/

structure PostElement where
  dataUrn : Option String
  strategy1Matches : List String
  hrefs : List (Option String)
  selectorTexts : List (Option String)
  fullInnerText : Option String
  selectorImages : List (List (Option String))
  timeDatetimes : List (Option String)
deriving Repr, DecidableEq

/-- Python truthiness of an optional string (`None` and `""` are falsy). -/
def optTruthy : Option String → Bool
  | none => false
  | some s => s != ""

/-- Does the second character list start with the first? -/
def isPrefixChars : List Char → List Char → Bool
  | [], _ => true
  | _ :: _, [] => false
  | a :: as, b :: bs => a == b && isPrefixChars as bs

def containsSubChars (sub : List Char) : List Char → Bool
  | [] => isPrefixChars sub []
  | c :: rest => isPrefixChars sub (c :: rest) || containsSubChars sub rest

/-- Python substring containment `sub in s`. -/
def pyIn (sub s : String) : Bool :=
  containsSubChars sub.data s.data

def takeUntilSub (sep : List Char) : List Char → List Char
  | [] => []
  | c :: rest => if isPrefixChars sep (c :: rest) then [] else c :: takeUntilSub sep rest

/-- `s.split(sep)[0]` for a non-empty separator: the prefix before the first
occurrence of `sep` (the whole string when `sep` does not occur). -/
def splitHead (sep s : String) : String :=
  String.mk (takeUntilSub sep.data s.data)

/-- `s.split(c)[-1]` for a one-character separator: the suffix after the last
occurrence of `c` (the whole string when `c` does not occur). -/
def takeAfterLastChar (c : Char) (s : String) : String :=
  String.mk ((s.data.reverse.takeWhile (fun d => d != c)).reverse)

/-- `s.split(sep)[1]` for a non-empty separator: the segment between the first
and second occurrences of `sep`; `none` when `sep` does not occur (where the
Python indexing raises `IndexError`). -/
def segmentAfterFirst (sep : List Char) : List Char → Option (List Char)
  | [] => none
  | c :: rest =>
    if isPrefixChars sep (c :: rest) then
      some (takeUntilSub sep (List.drop sep.length (c :: rest)))
    else segmentAfterFirst sep rest

/-- `s.startswith(pre)`. -/
def pyStartsWith (pre s : String) : Bool :=
  isPrefixChars pre.data s.data

/-- `s.rstrip(c)`-style right strip by a character predicate. -/
def dropRightWhileChars (p : Char → Bool) (s : String) : String :=
  String.mk ((s.data.reverse.dropWhile p).reverse)

/-- `s.split(c)[0]` for a one-character separator: the prefix before the first
occurrence of `c`. -/
def pySplitHeadChar (c : Char) (s : String) : String :=
  String.mk (s.data.takeWhile (fun d => d != c))

def DQUOTE : Char := Char.ofNat 34

def SQUOTE : Char := Char.ofNat 39

/-! ### Identity resolution (strategies 1-4, lines 481-547) -/

/-- Strategy 1 (lines 485-507): if the `data-urn` attribute is truthy and
contains `"activity"`, take the activity id from its last `:`-segment, and when
the strategy-1 regex found a full content-path URL in this element's HTML,
build the permanent link from its first match (cut at any quote character, as
`matches[0].split(CHR34)[0].split(CHR39)[0]` does). -/
def strategy1 (el : PostElement) : Option String × Option String :=
  match el.dataUrn with
  | some data_urn =>
    if data_urn != "" && pyIn "activity" data_urn then
      let activity_id := takeAfterLastChar ':' data_urn
      match el.strategy1Matches with
      | post_url :: _ =>
        (some ("https://www.linkedin.com" ++ pySplitHeadChar SQUOTE (pySplitHeadChar DQUOTE post_url)),
         some activity_id)
      | [] => (none, some activity_id)
    else (none, none)
  | none => (none, none)

/-- Strategies 2 and 3 (lines 509-539): scan the anchors for the first truthy
href containing `marker` and `"activity-"`; cut the query string, prefix the
host when the result is not absolute, and re-derive the activity id from the
text after `"activity-"` with trailing slashes stripped (keeping the previous
id when that indexing would raise). -/
def hrefStrategy (marker : String) (hrefs : List (Option String))
    (activity_id : Option String) : Option (String × Option String) :=
  match hrefs.find? (fun h =>
    match h with
    | some href => href != "" && pyIn marker href && pyIn "activity-" href
    | none => false) with
  | some (some href) =>
    let base_href := if pyIn "?" href then splitHead "?" href else href
    let base_href := if pyStartsWith "http" base_href then base_href
      else "https://www.linkedin.com" ++ base_href
    let activity_id := match segmentAfterFirst "activity-".data base_href.data with
      | some t => some (dropRightWhileChars (fun c => c == '/') (String.mk t))
      | none => activity_id
    some (base_href, activity_id)
  | _ => none

/-- Strategy 4 (lines 541-547): synthesize the always-valid
`feed/update/urn:li:activity:{id}` address from the `data-urn` attribute. -/
def strategy4 (el : PostElement) : Option (String × String) :=
  match el.dataUrn with
  | some data_urn =>
    if data_urn != "" && pyIn "activity" data_urn then
      let activity_id := takeAfterLastChar ':' data_urn
      some ("https://www.linkedin.com/feed/update/urn:li:activity:" ++ activity_id, activity_id)
    else none
  | none => none

/-- The full identity-resolution chain: each later strategy runs only while
`post_link` is still falsy. -/
def extractLink (el : PostElement) : Option String × Option String :=
  let s1 := strategy1 el
  let post_link := s1.1
  let activity_id := s1.2
  let s2 :=
    if optTruthy post_link then (post_link, activity_id)
    else match hrefStrategy "/posts/master-concept_" el.hrefs activity_id with
      | some (l, a) => (some l, a)
      | none => (post_link, activity_id)
  let s3 :=
    if optTruthy s2.1 then s2
    else match hrefStrategy "/posts/" el.hrefs s2.2 with
      | some (l, a) => (some l, a)
      | none => s2
  if optTruthy s3.1 then s3
  else match strategy4 el with
    | some (l, a) => (some l, some a)
    | none => s3

/-! ### Text extraction (lines 549-575) -/

def POST_WITHOUT_TEXT_DESCRIPTION : String := "[Post without text description]"

def POST_WITHOUT_TEXT : String := "[Post without text]"

/-- The text-selector loop: the first selector whose node's stripped
`inner_text` is non-empty wins; otherwise `post_text` ends up `""`. -/
def firstSelectorText : List (Option String) → String
  | [] => ""
  | none :: rest => firstSelectorText rest
  | some t :: rest =>
    let post_text := pyStrip t
    if post_text = "" then firstSelectorText rest else post_text

/-- Full text extraction including the fallback: when no selector produced
text, use the element's whole stripped `inner_text`, substituting the
"no description" sentinel when that is shorter than 10 characters or the
accessor raised. -/
def extractText (el : PostElement) : String :=
  let post_text := firstSelectorText el.selectorTexts
  if post_text = "" then
    match el.fullInnerText with
    | some ft =>
      let t := pyStrip ft
      if t.length < 10 then POST_WITHOUT_TEXT_DESCRIPTION else t
    | none => POST_WITHOUT_TEXT_DESCRIPTION
  else post_text

/-! ### Image extraction (lines 577-598) -/

/-- One image selector's inner loop: keep truthy `src` values on the LinkedIn
media host, skip company logos and profile pictures, and deduplicate by exact
URL while preserving first-seen order. -/
def processImgs : List (Option String) → List String → List String
  | [], post_images => post_images
  | none :: rest, post_images => processImgs rest post_images
  | some img_src :: rest, post_images =>
    if img_src != "" && pyIn "media.licdn.com/dms/image" img_src then
      if pyIn "company-logo_100_100" img_src || pyIn "profile-" img_src then
        processImgs rest post_images
      else if post_images.contains img_src then
        processImgs rest post_images
      else
        processImgs rest (post_images ++ [img_src])
    else processImgs rest post_images

def extractImagesGo : List (List (Option String)) → List String → List String
  | [], post_images => post_images
  | sel :: rest, post_images =>
    let post_images := processImgs sel post_images
    if post_images != [] then post_images else extractImagesGo rest post_images

/-- The image-selector loop stops at the first selector that yielded at least
one kept image. -/
def extractImages (el : PostElement) : List String :=
  extractImagesGo el.selectorImages []

/-! ### Timestamp extraction (lines 600-618) -/

/-- First truthy `datetime` attribute among the `time` elements. -/
def firstTimeAttr : List (Option String) → Option String
  | [] => none
  | none :: rest => firstTimeAttr rest
  | some dt :: rest => if dt = "" then firstTimeAttr rest else some dt

/-- Three-tier resolution: structured `datetime` attribute → timestamp decoded
from the activity id (rendered as a UTC ISO string by `isoOfMs`) → the
capture-time fallback `now`. -/
def extractDate (isoOfMs : Int → String) (now : String) (el : PostElement)
    (activity_id : Option String) : String :=
  let d1 := firstTimeAttr el.timeDatetimes
  let d2 := match d1 with
    | some d => some d
    | none =>
      if optTruthy activity_id then
        (decode_linkedin_activity_id (activity_id.getD "")).map isoOfMs
      else none
  match d2 with
  | some d => if d = "" then now else d
  | none => now

/-! ### The incremental scrape loop (lines 456-658) -/

def MAX_POSTS_TO_SCRAPE : Nat := 100

structure ScrapeConfig where
  target_post_link : Option String
  max_posts_initial : Nat
deriving Repr, DecidableEq

/-- Line 182: `is_initial_run = (target_post_link is None)`. -/
def is_initial_run (cfg : ScrapeConfig) : Bool :=
  cfg.target_post_link.isNone

/-- Lines 623-624: normalize a link for the boundary comparison —
`link.split(CHR63)[0].rstrip(CHR47)` strips the query string and trailing path
separators. -/
def normalizeLink (s : String) : String :=
  dropRightWhileChars (fun c => c == '/') (splitHead "?" s)

structure LoopState where
  posts : List Post
  processed_count : Nat
  found_target : Bool
deriving Repr, DecidableEq

/-- Lines 631-645: the persist step run when a link was resolved; short or
empty body text is replaced by the "[Post without text]" sentinel before it is
used as description and truncated (100 characters plus marker) as title. -/
def persistPost (now post_link post_text post_date : String)
    (post_images : List String) : Post :=
  let post_text := if post_text = "" ∨ post_text.length < 5 then POST_WITHOUT_TEXT else post_text
  { title := if 100 < post_text.length then post_text.take 100 ++ "..." else post_text,
    link := post_link,
    description := post_text,
    published := post_date,
    images := post_images,
    scraped_at := now }

/-- The full per-element pipeline result for an element whose link resolved. -/
def elementPost (isoOfMs : Int → String) (now : String) (el : PostElement) : Post :=
  persistPost now (((extractLink el).1).getD "") (extractText el)
    (extractDate isoOfMs now el (extractLink el).2) (extractImages el)

/-- The `for idx, post_element in enumerate(post_elements)` loop of
`scrape_posts` (lines 464-655).  Exit guards in source order: the 100-post
safety cap, the bootstrap cap (initial runs only), and a previously signalled
boundary; then identity/text/image/date extraction; then the catch-up boundary
check (lines 620-629), which on a normalized match stops without persisting the
matching element; finally the persist step for elements with a resolved link
(unresolvable elements are skipped, not persisted). -/
def scrape_posts_loop (cfg : ScrapeConfig) (isoOfMs : Int → String) (now : String) :
    List PostElement → LoopState → LoopState
  | [], st => st
  | el :: rest, st =>
    if MAX_POSTS_TO_SCRAPE ≤ st.processed_count then st
    else if is_initial_run cfg = true ∧ cfg.max_posts_initial ≤ st.processed_count then st
    else if st.found_target = true then st
    else
      let post_link := (extractLink el).1
      let activity_id := (extractLink el).2
      let post_text := extractText el
      let post_images := extractImages el
      let post_date := extractDate isoOfMs now el activity_id
      if is_initial_run cfg = false ∧ optTruthy cfg.target_post_link = true ∧
          optTruthy post_link = true ∧
          normalizeLink (post_link.getD "") = normalizeLink (cfg.target_post_link.getD "") then
        { st with found_target := true }
      else if optTruthy post_link = true then
        scrape_posts_loop cfg isoOfMs now rest
          { posts := st.posts ++ [persistPost now (post_link.getD "") post_text post_date post_images],
            processed_count := st.processed_count + 1,
            found_target := st.found_target }
      else
        scrape_posts_loop cfg isoOfMs now rest st

/-! ### Loop lemmas -/

/-- In catch-up mode, running the loop over a stream `pre ++ b :: rest` in
which all of `pre` resolve links that do not match the mark and `b` resolves a
matching link accepts exactly `pre` and stops with the boundary signalled. -/
lemma scrape_loop_catchup (M : String) (hM : M ≠ "") (cap : Nat)
    (isoOfMs : Int → String) (now : String) :
    ∀ (pre : List PostElement) (b : PostElement) (rest : List PostElement)
      (ps : List Post) (n : Nat),
      (∀ el ∈ pre, optTruthy (extractLink el).1 = true ∧
        normalizeLink (((extractLink el).1).getD "") ≠ normalizeLink M) →
      optTruthy (extractLink b).1 = true →
      normalizeLink (((extractLink b).1).getD "") = normalizeLink M →
      n = ps.length → n + pre.length < MAX_POSTS_TO_SCRAPE →
      scrape_posts_loop ⟨some M, cap⟩ isoOfMs now (pre ++ b :: rest) ⟨ps, n, false⟩ =
        ⟨ps ++ pre.map (elementPost isoOfMs now), n + pre.length, true⟩ := by
  intro pre
  induction pre with
  | nil =>
    intro b rest ps n hpre hb hbm hn hcap
    simp only [MAX_POSTS_TO_SCRAPE, List.length_nil, Nat.add_zero] at hcap
    simp only [List.nil_append, scrape_posts_loop, MAX_POSTS_TO_SCRAPE]
    rw [if_neg (by omega)]
    rw [if_neg (by simp [is_initial_run])]
    rw [if_neg (by simp)]
    rw [if_pos ⟨by simp [is_initial_run], by simpa [optTruthy] using hM, hb, hbm⟩]
    simp
  | cons a pre ih =>
    intro b rest ps n hpre hb hbm hn hcap
    have ha := hpre a (by simp)
    simp only [MAX_POSTS_TO_SCRAPE, List.length_cons] at hcap
    simp only [List.cons_append, scrape_posts_loop, MAX_POSTS_TO_SCRAPE]
    rw [if_neg (by omega)]
    rw [if_neg (by simp [is_initial_run])]
    rw [if_neg (by simp)]
    rw [if_neg (fun h => ha.2 h.2.2.2)]
    rw [if_pos ha.1]
    rw [show persistPost now (((extractLink a).1).getD "") (extractText a)
        (extractDate isoOfMs now a (extractLink a).2) (extractImages a) =
          elementPost isoOfMs now a from rfl]
    have hstep := ih b rest (ps ++ [elementPost isoOfMs now a]) (n + 1)
      (fun el hel => hpre el (by simp [hel])) hb hbm (by simp [hn])
      (by simp only [MAX_POSTS_TO_SCRAPE]; omega)
    simp only [List.append_eq]
    rw [hstep]
    congr 1
    · simp
    · simp only [List.length_cons]
      omega

/-- In bootstrap mode (no high-water mark), the loop over a stream of elements
that all resolve links accepts exactly the first `cap - n` elements and never
signals a boundary. -/
lemma scrape_loop_bootstrap (cap : Nat) (hcap : cap ≤ MAX_POSTS_TO_SCRAPE)
    (isoOfMs : Int → String) (now : String) :
    ∀ (els : List PostElement) (ps : List Post) (n : Nat),
      (∀ el ∈ els, optTruthy (extractLink el).1 = true) →
      n = ps.length → n ≤ cap →
      scrape_posts_loop ⟨none, cap⟩ isoOfMs now els ⟨ps, n, false⟩ =
        ⟨ps ++ (els.take (cap - n)).map (elementPost isoOfMs now),
         n + min (cap - n) els.length, false⟩ := by
  simp only [MAX_POSTS_TO_SCRAPE] at hcap
  intro els
  induction els with
  | nil =>
    intro ps n hres hn hle
    simp [scrape_posts_loop]
  | cons el rest ih =>
    intro ps n hres hn hle
    by_cases hfull : cap ≤ n
    · have hz : cap - n = 0 := by omega
      simp only [scrape_posts_loop, MAX_POSTS_TO_SCRAPE]
      by_cases h100 : (100 : Nat) ≤ n
      · rw [if_pos h100]
        simp [hz]
      · rw [if_neg h100, if_pos ⟨by simp [is_initial_run], hfull⟩]
        simp [hz]
    · have hlt : n < cap := by omega
      simp only [scrape_posts_loop, MAX_POSTS_TO_SCRAPE]
      rw [if_neg (by omega)]
      rw [if_neg (fun h => absurd h.2 (by omega))]
      rw [if_neg (by simp)]
      rw [if_neg (fun h => absurd h.2.1 (by decide))]
      rw [if_pos (hres el (by simp))]
      rw [show persistPost now (((extractLink el).1).getD "") (extractText el)
          (extractDate isoOfMs now el (extractLink el).2) (extractImages el) =
            elementPost isoOfMs now el from rfl]
      have hstep := ih (ps ++ [elementPost isoOfMs now el]) (n + 1)
        (fun e he => hres e (by simp [he])) (by simp [hn]) (by omega)
      rw [hstep]
      have h1 : cap - n = (cap - (n + 1)) + 1 := by omega
      congr 1
      · rw [h1, List.take_succ_cons]
        simp
      · simp only [List.length_cons]
        omega

/-- Without a high-water mark (Bootstrap selection), the loop never signals a
boundary, whatever the stream or starting state. -/
lemma scrape_loop_no_target (cap : Nat) (isoOfMs : Int → String) (now : String) :
    ∀ (els : List PostElement) (st : LoopState),
      (scrape_posts_loop ⟨none, cap⟩ isoOfMs now els st).found_target = st.found_target := by
  intro els
  induction els with
  | nil => intro st; simp [scrape_posts_loop]
  | cons el rest ih =>
    intro st
    simp only [scrape_posts_loop]
    split_ifs with h1 h2 h3 h4 h5
    · rfl
    · rfl
    · rfl
    · exact absurd h4.2.1 (by decide)
    · simpa using ih _
    · exact ih st

/-- C2: in catch-up mode with high-water mark `M`, a candidate stream whose
elements before position `k = pre.length` resolve non-matching identities and
whose `k`-th element resolves an identity equal to `M` after normalization
makes the loop signal the boundary exactly at position `k`: the elements before
`k` are accepted in order, the element at `k` is excluded from the output, and
`found_target` is set.  When the mark is absent the boundary flag is never
changed.  Normalization strips the query string and trailing path separators
(last two conjuncts). -/
theorem catchup_boundary_exact (M : String) (cap : Nat) (isoOfMs : Int → String) (now : String)
    (pre : List PostElement) (b : PostElement) (rest : List PostElement)
    (cap2 : Nat) (els2 : List PostElement) (st2 : LoopState)
    (hM : M ≠ "")
    (hpre : ∀ el ∈ pre, optTruthy (extractLink el).1 = true ∧
      normalizeLink (((extractLink el).1).getD "") ≠ normalizeLink M)
    (hb : optTruthy (extractLink b).1 = true)
    (hbm : normalizeLink (((extractLink b).1).getD "") = normalizeLink M)
    (hcap : pre.length < MAX_POSTS_TO_SCRAPE) :
    scrape_posts_loop ⟨some M, cap⟩ isoOfMs now (pre ++ b :: rest) ⟨[], 0, false⟩ =
      ⟨pre.map (elementPost isoOfMs now), pre.length, true⟩ ∧
    (scrape_posts_loop ⟨none, cap2⟩ isoOfMs now els2 st2).found_target = st2.found_target ∧
    normalizeLink "https://www.linkedin.com/feed/update/urn:li:activity:1?utm_source=x" =
      "https://www.linkedin.com/feed/update/urn:li:activity:1" ∧
    normalizeLink "https://www.linkedin.com/company/acme/posts///" =
      "https://www.linkedin.com/company/acme/posts" := by
  refine ⟨?_, scrape_loop_no_target cap2 isoOfMs now els2 st2, by decide, by decide⟩
  have h := scrape_loop_catchup M hM cap isoOfMs now pre b rest [] 0 hpre hb hbm rfl
    (by simpa using hcap)
  simpa using h

/-- Concrete raw element: strategies 1-3 fail (no regex match, no anchors), and
strategy 4 synthesizes the feed-update link from the `data-urn` attribute. -/
def sampleElement (n : String) : PostElement :=
  { dataUrn := some ("urn:li:activity:" ++ n),
    strategy1Matches := [],
    hrefs := [],
    selectorTexts := [some "A LinkedIn post body that is long enough."],
    fullInnerText := some "A LinkedIn post body that is long enough.",
    selectorImages := [],
    timeDatetimes := [] }

/-- Witness for C2 at a concrete stream: one fresh item, then the marked item. -/
theorem catchup_boundary_exact_witness :
    scrape_posts_loop ⟨some "https://www.linkedin.com/feed/update/urn:li:activity:222", 10⟩
        (fun _ => "2024-05-01T00:00:00+00:00") "2024-05-02T00:00:00"
        ([sampleElement "111"] ++ sampleElement "222" :: []) ⟨[], 0, false⟩ =
      ⟨[sampleElement "111"].map
          (elementPost (fun _ => "2024-05-01T00:00:00+00:00") "2024-05-02T00:00:00"),
       [sampleElement "111"].length, true⟩ ∧
    (scrape_posts_loop ⟨none, 10⟩ (fun _ => "2024-05-01T00:00:00+00:00") "2024-05-02T00:00:00"
        [sampleElement "111"] ⟨[], 0, false⟩).found_target = false ∧
    normalizeLink "https://www.linkedin.com/feed/update/urn:li:activity:1?utm_source=x" =
      "https://www.linkedin.com/feed/update/urn:li:activity:1" ∧
    normalizeLink "https://www.linkedin.com/company/acme/posts///" =
      "https://www.linkedin.com/company/acme/posts" :=
  catchup_boundary_exact "https://www.linkedin.com/feed/update/urn:li:activity:222" 10
    (fun _ => "2024-05-01T00:00:00+00:00") "2024-05-02T00:00:00"
    [sampleElement "111"] (sampleElement "222") [] 10 [sampleElement "111"] ⟨[], 0, false⟩
    (by decide) (by decide) (by decide) (by decide) (by decide)

/-- C6: bootstrap cap — with no prior state (no high-water mark), a stream of
15 raw elements that each resolve an identity, and `max_posts_initial = 10`,
exactly the first 10 elements are accepted, and merging them into the (empty)
prior state persists exactly those 10. -/
theorem bootstrap_cap_exact (isoOfMs : Int → String) (now : String) (els : List PostElement)
    (h15 : els.length = 15)
    (hres : ∀ el ∈ els, optTruthy (extractLink el).1 = true) :
    (scrape_posts_loop ⟨none, 10⟩ isoOfMs now els ⟨[], 0, false⟩).posts =
      (els.take 10).map (elementPost isoOfMs now) ∧
    (scrape_posts_loop ⟨none, 10⟩ isoOfMs now els ⟨[], 0, false⟩).posts.length = 10 ∧
    save_posts_merge ((scrape_posts_loop ⟨none, 10⟩ isoOfMs now els ⟨[], 0, false⟩).posts)
        (load_existing_posts none) =
      (scrape_posts_loop ⟨none, 10⟩ isoOfMs now els ⟨[], 0, false⟩).posts := by
  have h := scrape_loop_bootstrap 10 (by decide) isoOfMs now els [] 0 hres rfl (by omega)
  rw [h]
  refine ⟨by simp, by simp [h15], ?_⟩
  simp [load_existing_posts, save_posts_merge, mergeExisting]

/-- Witness for C6: fifteen concrete elements. -/
def fifteenElements : List PostElement :=
  List.replicate 15 (sampleElement "7168061717293715457")

/-- Witness for C6 at the concrete fifteen-element stream. -/
theorem bootstrap_cap_exact_witness :
    (scrape_posts_loop ⟨none, 10⟩ (fun _ => "2024-05-01T00:00:00+00:00") "2024-05-02T00:00:00"
        fifteenElements ⟨[], 0, false⟩).posts =
      (fifteenElements.take 10).map
        (elementPost (fun _ => "2024-05-01T00:00:00+00:00") "2024-05-02T00:00:00") ∧
    (scrape_posts_loop ⟨none, 10⟩ (fun _ => "2024-05-01T00:00:00+00:00") "2024-05-02T00:00:00"
        fifteenElements ⟨[], 0, false⟩).posts.length = 10 ∧
    save_posts_merge ((scrape_posts_loop ⟨none, 10⟩ (fun _ => "2024-05-01T00:00:00+00:00")
          "2024-05-02T00:00:00" fifteenElements ⟨[], 0, false⟩).posts)
        (load_existing_posts none) =
      (scrape_posts_loop ⟨none, 10⟩ (fun _ => "2024-05-01T00:00:00+00:00") "2024-05-02T00:00:00"
        fifteenElements ⟨[], 0, false⟩).posts :=
  bootstrap_cap_exact (fun _ => "2024-05-01T00:00:00+00:00") "2024-05-02T00:00:00"
    fifteenElements (by decide) (by decide)

/-! ### Sentinel fallback (C8) -/

/-- A text selector yielded no node or a node whose stripped text is empty. -/
def selectorYieldsNoText (o : Option String) : Bool :=
  match o with
  | none => true
  | some s => pyStrip s == ""

/-- The whole-element fallback text is absent (accessor raised) or strips to
fewer than 10 characters. -/
def fallbackTooShort (o : Option String) : Bool :=
  match o with
  | none => true
  | some s => decide ((pyStrip s).length < 10)

lemma firstSelectorText_all_empty :
    ∀ sel : List (Option String), (∀ o ∈ sel, selectorYieldsNoText o = true) →
      firstSelectorText sel = "" := by
  intro sel
  induction sel with
  | nil => intro _; rfl
  | cons o rest ih =>
    intro h
    match o with
    | none => exact ih (fun o ho => h o (by simp [ho]))
    | some t =>
      have ht : pyStrip t = "" := by
        have := h (some t) (by simp)
        simpa [selectorYieldsNoText] using this
      simp only [firstSelectorText, ht, if_pos rfl]
      exact ih (fun o ho => h o (by simp [ho]))

/-- C8: a raw element whose text selectors all yield empty text and whose
full-text fallback strips to fewer than 10 characters gets the fixed
"no description" sentinel as body; the persisted record built for it carries
that sentinel as both `description` and `title` (31 characters, so neither the
5-character re-check nor the 100-character truncation changes it); and the
element is still persisted when an identity was resolved (here: a bootstrap run
accepts it). -/
theorem sentinel_fallback (isoOfMs : Int → String) (now : String) (el : PostElement)
    (hsel : ∀ o ∈ el.selectorTexts, selectorYieldsNoText o = true)
    (hfull : fallbackTooShort el.fullInnerText = true)
    (hlink : optTruthy (extractLink el).1 = true) :
    extractText el = POST_WITHOUT_TEXT_DESCRIPTION ∧
    (elementPost isoOfMs now el).description = POST_WITHOUT_TEXT_DESCRIPTION ∧
    (elementPost isoOfMs now el).title = POST_WITHOUT_TEXT_DESCRIPTION ∧
    scrape_posts_loop ⟨none, 10⟩ isoOfMs now [el] ⟨[], 0, false⟩ =
      ⟨[elementPost isoOfMs now el], 1, false⟩ := by
  have hsel0 := firstSelectorText_all_empty el.selectorTexts hsel
  have htext : extractText el = POST_WITHOUT_TEXT_DESCRIPTION := by
    unfold extractText
    rw [hsel0, if_pos rfl]
    match hft : el.fullInnerText with
    | none => rfl
    | some ft =>
      have hshort : (pyStrip ft).length < 10 := by
        rw [hft] at hfull
        simpa [fallbackTooShort] using hfull
      simp [hshort]
  refine ⟨htext, ?_, ?_, ?_⟩
  · simp only [elementPost, persistPost, htext]
    rw [if_neg (by decide)]
  · simp only [elementPost, persistPost, htext]
    rw [if_neg (by decide), if_neg (by decide)]
  · have h := scrape_loop_bootstrap 10 (by decide) isoOfMs now [el] [] 0
      (by intro e he; simp at he; subst he; exact hlink) rfl (by omega)
    rw [h]
    simp

/-- Concrete raw element for the C8 witness: seven text selectors that all
fail (no node or whitespace-only text), a 2-character stripped fallback, and an
identity resolved from the `data-urn` attribute. -/
def sampleNoTextElement : PostElement :=
  { dataUrn := some "urn:li:activity:333",
    strategy1Matches := [],
    hrefs := [],
    selectorTexts := [none, some "   ", none, none, none, some "", none],
    fullInnerText := some "  hi  ",
    selectorImages := [[]],
    timeDatetimes := [none] }

/-- Witness for C8 at the concrete element. -/
theorem sentinel_fallback_witness :
    extractText sampleNoTextElement = POST_WITHOUT_TEXT_DESCRIPTION ∧
    (elementPost (fun _ => "2024-05-01T00:00:00+00:00") "2024-05-02T00:00:00"
        sampleNoTextElement).description = POST_WITHOUT_TEXT_DESCRIPTION ∧
    (elementPost (fun _ => "2024-05-01T00:00:00+00:00") "2024-05-02T00:00:00"
        sampleNoTextElement).title = POST_WITHOUT_TEXT_DESCRIPTION ∧
    scrape_posts_loop ⟨none, 10⟩ (fun _ => "2024-05-01T00:00:00+00:00") "2024-05-02T00:00:00"
        [sampleNoTextElement] ⟨[], 0, false⟩ =
      ⟨[elementPost (fun _ => "2024-05-01T00:00:00+00:00") "2024-05-02T00:00:00"
          sampleNoTextElement], 1, false⟩ :=
  sentinel_fallback (fun _ => "2024-05-01T00:00:00+00:00") "2024-05-02T00:00:00"
    sampleNoTextElement (by decide) (by decide) (by decide)

end LinkedInFeed
